import Mathlib

/-!
Verification of the archivist-python client library against its
natural-language specification.  The Python source under
`src/archivist/` is shallowly embedded: dictionaries become association
lists over a JSON-like value type, stateful methods become explicit
state-passing functions, Python exceptions become `Except`, and the
wall clock and the HTTP session become explicit parameters.
-/

namespace Archivist

/-- JSON-compatible values carried in entity mappings
(string, number, bool, null, nested mapping, list). -/
inductive Val where
  | s : String → Val
  | n : Int → Val
  | b : Bool → Val
  | null : Val
  | dict : List (String × Val) → Val
  | arr : List Val → Val
  deriving Repr

/-- A Python dict with string keys, embedded as an association list
(first occurrence of a key wins, as keys are unique in Python dicts). -/
def Dict := List (String × Val)
  deriving Repr

/-- Dictionary lookup: `d[k]` when present, `none` when absent. -/
def dlookup (k : String) : Dict → Option Val
  | [] => none
  | (k', v) :: rest => if k' = k then some v else dlookup k rest

/-- Python `d[k]`: the value, or a `KeyError` when the key is absent. -/
def getItem (d : Dict) (k : String) : Except Unit Val :=
  match dlookup k d with
  | some v => Except.ok v
  | none => Except.error ()

/-- Python `d.pop(k)`: the value together with the dict without the key,
or a `KeyError` when the key is absent. -/
def dpop (k : String) : Dict → Except Unit (Val × Dict)
  | [] => Except.error ()
  | (k', v) :: rest =>
      if k' = k then Except.ok (v, rest)
      else
        match dpop k rest with
        | Except.ok (w, rest') => Except.ok (w, (k', v) :: rest')
        | Except.error e => Except.error e

/-- Membership of a key in a dict (`k in d`). -/
def dmem (k : String) (d : Dict) : Bool := (dlookup k d).isSome

/- Constants from `src/archivist/constants.py`. -/

def ROOT : String := "archivist"
def SEP : String := "/"
def HEADERS_RETRY_AFTER : String := "Archivist-Rate-Limit-Reset"
def CONFIRMATION_STATUS : String := "confirmation_status"
def CONFIRMATION_PENDING : String := "PENDING"
def CONFIRMATION_FAILED : String := "FAILED"
def CONFIRMATION_CONFIRMED : String := "CONFIRMED"
def LOCATIONS_SUBPATH : String := "v2"
def LOCATIONS_LABEL : String := "locations"

/- `src/archivist/locations.py`: the `Location` entity class.
A `Location` is a dict subclass, so it is embedded as `Dict`. -/

def Location := Dict
  deriving Repr

/-- Python property `Location.name` (locations.py lines 49-58): starts from `name = None`,
tries `self["display_name"]`, and swallows `KeyError`, so an absent key
yields `None` rather than an exception. -/
def Location.name (l : Location) : Option Val :=
  match getItem l "display_name" with
  | Except.ok v => some v
  | Except.error _ => none

/- The Archivist connection class (`src/archivist/archivist.py`). -/

/-- Errors raised by the client: `ArchivistError` configuration and auth
failures, and typed HTTP-status errors from `_parse_response`. -/
inductive ArchErr where
  | archivist (msg : String)
  | http (status : Nat) (body : Dict)
  deriving Repr

/-- A raw HTTP response from the session. -/
structure HttpResponse where
  status : Nat
  body : Dict
  deriving Repr

/-- The body an outgoing request carries, distinguishing the JSON mode
(`json=request`), the form-encoded mode (`data=request`), the multipart
file-upload mode, and bodiless verbs. -/
inductive ReqBody where
  | jsonBody (d : Option Dict)
  | formBody (d : Option Dict)
  | multipart (form filename mtype : String)
  | noBody
  deriving Repr

/-- An outgoing HTTP request as handed to the `requests` session. -/
structure HttpRequest where
  method : String
  url : String
  headers : List (String × String)
  body : ReqBody
  deriving Repr

/-- The response of the appidp token endpoint, as consumed by the
`auth` property: `apptoken.get("access_token")` and
`apptoken["expires_in"]`. -/
structure TokenResponse where
  access_token : Option String
  expires_in : Int
  deriving Repr

/-- The mutable state of an `Archivist` instance: the fields set by
`__init__` (archivist.py lines 104-133 and the `ArchivistPublic` base),
plus the diagnostic response ring buffer and a trace of every request
issued through the session. -/
structure ArchState where
  url : String
  root : String
  auth : Option String
  client_id : Option String
  client_secret : Option String
  expires_at : Int
  max_time : Int
  ring : List HttpResponse
  trace : List HttpRequest

/-- The `auth` argument of the constructor: `None`, a JWT token string,
or a `(client_id, client_secret)` tuple (`MachineAuth`). -/
inductive AuthArg where
  | noAuth
  | token (t : String)
  | machine (client_id client_secret : String)
  deriving Repr

/-- Python `str.endswith`: whether the characters of `suffix` are a
suffix of the characters of `s`. -/
def endswith (s suffix : String) : Bool :=
  suffix.data.isSuffixOf s.data

/-- Python constructor `Archivist.__init__` (archivist.py lines 104-133):
splits the auth argument on `isinstance(auth, tuple)`, sets
`_expires_at = 0`, rejects a URL with a trailing slash by raising
`ArchivistError`, and otherwise records `_url` and
`_root = SEP.join((url, ROOT))`.  No request is issued: the trace and
the ring buffer of the new instance are empty. -/
def Archivist.init (url : String) (auth : AuthArg) (max_time : Int) :
    Except ArchErr ArchState :=
  let fields :=
    match auth with
    | AuthArg.machine i s => (none, some i, some s)
    | AuthArg.token t => (some t, none, none)
    | AuthArg.noAuth => (none, none, none)
  if endswith url "/" then
    Except.error (ArchErr.archivist ("URL " ++ url ++ " has trailing /"))
  else
    Except.ok
      { url := url
        root := url ++ SEP ++ ROOT
        auth := fields.1
        client_id := fields.2.1
        client_secret := fields.2.2
        expires_at := 0
        max_time := max_time
        ring := []
        trace := [] }

/-- Outcome of reading the `auth` property: the token returned, the
instance state afterwards, and whether a token-fetch call to the appidp
endpoint was made. -/
structure AuthOutcome where
  token : Option String
  state : ArchState
  refreshed : Bool

/-- Python property `Archivist.auth` (archivist.py lines 181-192): when
constructed from client credentials and `_expires_at < time()`, fetches
an apptoken from the appidp endpoint (here the response is the `fetch`
argument), stores `access_token` (raising `ArchivistError` when absent)
and `_expires_at = time() + expires_in - 10`; otherwise returns the
stored `_auth` unchanged without any fetch. -/
def Archivist.authGet (s : ArchState) (now : Int) (fetch : TokenResponse) :
    Except ArchErr AuthOutcome :=
  if s.client_id.isSome ∧ s.expires_at < now then
    match fetch.access_token with
    | none =>
        Except.error (ArchErr.archivist "Auth token from client id,secret is invalid")
    | some a =>
        Except.ok
          { token := some a
            state :=
              { s with
                auth := some a
                expires_at := now + fetch.expires_in - 10 }
            refreshed := true }
  else
    Except.ok { token := s.auth, state := s, refreshed := false }

/-- Python dict assignment `h[k] = v`: replaces any previous binding. -/
def hset (k v : String) (hs : List (String × String)) : List (String × String) :=
  hs.filter (fun kv => kv.1 ≠ k) ++ [(k, v)]

/-- Python method `Archivist._add_headers` (archivist.py lines 212-223):
copies the caller's headers, reads the `auth` property once (which may
refresh the token), and when a token is available sets
`authorization: Bearer <token.strip()>`. -/
def Archivist.addHeaders (s : ArchState) (now : Int) (fetch : TokenResponse)
    (headers : Option (List (String × String))) :
    Except ArchErr (List (String × String) × ArchState) :=
  let newheaders := headers.getD []
  match Archivist.authGet s now fetch with
  | Except.error e => Except.error e
  | Except.ok o =>
      match o.token with
      | some a =>
          Except.ok (hset "authorization" ("Bearer " ++ a.trim) newheaders, o.state)
      | none => Except.ok (newheaders, o.state)

/-- Modelled from the spec: `_parse_response` (errors.py, not under src/)
returns no error on a successful status code and a typed error carrying
the status and body otherwise. -/
def parseResponse (r : HttpResponse) : Option ArchErr :=
  if 200 ≤ r.status ∧ r.status < 300 then none
  else some (ArchErr.http r.status r.body)

/-- Python `deque.appendleft` on a deque constructed with a `maxlen`:
the new element becomes the first and the oldest is evicted when full. -/
def ringAppendleft (maxlen : Nat) (x : HttpResponse) (q : List HttpResponse) :
    List HttpResponse :=
  List.take maxlen (x :: q)

/-- Python method `Archivist.post` (archivist.py lines 227-267): in the
form-encoded mode (`data=True`) the session is called with
`data=request` and no headers; in the JSON mode with `json=request` and
`_add_headers(headers)`.  The response is parsed and a non-2xx status
raises; the response is NOT appended to the ring buffer on either path.
The session's answer is the `resp` argument; the request issued is
appended to the trace. -/
def Archivist.post (s : ArchState) (now : Int) (fetch : TokenResponse)
    (resp : HttpResponse) (maxlen : Nat) (url : String) (request : Option Dict)
    (headers : Option (List (String × String))) (data : Bool) :
    ArchState × Except ArchErr Dict :=
  let _ := maxlen
  if data then
    let req : HttpRequest :=
      { method := "POST", url := url, headers := [], body := ReqBody.formBody request }
    let s1 := { s with trace := s.trace ++ [req] }
    match parseResponse resp with
    | some e => (s1, Except.error e)
    | none => (s1, Except.ok resp.body)
  else
    match Archivist.addHeaders s now fetch headers with
    | Except.error e => (s, Except.error e)
    | Except.ok (hs, s') =>
        let req : HttpRequest :=
          { method := "POST", url := url, headers := hs, body := ReqBody.jsonBody request }
        let s1 := { s' with trace := s'.trace ++ [req] }
        match parseResponse resp with
        | some e => (s1, Except.error e)
        | none => (s1, Except.ok resp.body)

/-- Python method `Archivist.post_file` (archivist.py lines 269-315):
builds a multipart body and a `content-type` header, posts with
`_add_headers(headers)`, appends the raw response to the ring buffer
with `appendleft`, then parses the response. -/
def Archivist.post_file (s : ArchState) (now : Int) (fetch : TokenResponse)
    (resp : HttpResponse) (maxlen : Nat) (url : String)
    (filename mtype form contentType : String) :
    ArchState × Except ArchErr Dict :=
  let headers := [("content-type", contentType)]
  match Archivist.addHeaders s now fetch (some headers) with
  | Except.error e => (s, Except.error e)
  | Except.ok (hs, s') =>
      let req : HttpRequest :=
        { method := "POST", url := url, headers := hs
          body := ReqBody.multipart form filename mtype }
      let s1 :=
        { s' with
          trace := s'.trace ++ [req]
          ring := ringAppendleft maxlen resp s'.ring }
      match parseResponse resp with
      | some e => (s1, Except.error e)
      | none => (s1, Except.ok resp.body)

/-- Python method `Archivist.delete` (archivist.py lines 317-342): calls
the session's delete with `_add_headers(headers)`, appends the raw
response to the ring buffer with `appendleft`, then parses it. -/
def Archivist.delete (s : ArchState) (now : Int) (fetch : TokenResponse)
    (resp : HttpResponse) (maxlen : Nat) (url : String)
    (headers : Option (List (String × String))) :
    ArchState × Except ArchErr Dict :=
  match Archivist.addHeaders s now fetch headers with
  | Except.error e => (s, Except.error e)
  | Except.ok (hs, s') =>
      let req : HttpRequest :=
        { method := "DELETE", url := url, headers := hs, body := ReqBody.noBody }
      let s1 :=
        { s' with
          trace := s'.trace ++ [req]
          ring := ringAppendleft maxlen resp s'.ring }
      match parseResponse resp with
      | some e => (s1, Except.error e)
      | none => (s1, Except.ok resp.body)

/-- Python method `Archivist.patch` (archivist.py lines 344-378): calls
the session's patch with `json=request` and `_add_headers(headers)`,
appends the raw response to the ring buffer with `appendleft`, then
parses it. -/
def Archivist.patch (s : ArchState) (now : Int) (fetch : TokenResponse)
    (resp : HttpResponse) (maxlen : Nat) (url : String) (request : Dict)
    (headers : Option (List (String × String))) :
    ArchState × Except ArchErr Dict :=
  match Archivist.addHeaders s now fetch headers with
  | Except.error e => (s, Except.error e)
  | Except.ok (hs, s') =>
      let req : HttpRequest :=
        { method := "PATCH", url := url, headers := hs, body := ReqBody.jsonBody (some request) }
      let s1 :=
        { s' with
          trace := s'.trace ++ [req]
          ring := ringAppendleft maxlen resp s'.ring }
      match parseResponse resp with
      | some e => (s1, Except.error e)
      | none => (s1, Except.ok resp.body)

/- The 429 retry wrapper (`retry429.py`, not under src/). -/

/-- Modelled from the spec: the default maximum elapsed time `MAX_TIME`
(confirmer.py, not under src/; the spec gives a default of 300 seconds),
shared by the retry wrapper and the confirmation poller. -/
def MAX_TIME : Nat := 300

/-- One answer of the server to an underlying call wrapped by the retry
decorator: a success body, or HTTP 429 with the optional retry-after
header (HEADERS_RETRY_AFTER), in seconds. -/
inductive RetryResponse where
  | ok (body : Dict)
  | rateLimited (retry_after : Option Nat)

/-- Outcome of the retry wrapper: the final body with the number of
underlying calls made and the total slept time, or the re-raised
RateLimitError, or exhaustion of the recursion bound. -/
inductive RetryResult where
  | success (body : Dict) (calls : Nat) (waited : Nat)
  | rateLimitRaised (calls : Nat) (waited : Nat)
  | outOfFuel

/-- Modelled from the spec: the `retry_429` decorator (retry429.py, not
under src/).  Each underlying call consults the server (`server idx` is
the answer to the idx-th call); on 429 it reads the server-supplied
retry-after duration (defaulting to 1 second when the header is
absent), sleeps that long, and retries, until a success response is
obtained or the maximum elapsed time is exceeded, at which point the
RateLimitError is re-raised.  `fuel` bounds the recursion; `idx` counts
calls already made, `elapsed` is the simulated clock and `waited` the
total slept time. -/
def retry429Run (server : Nat → RetryResponse) (maxTime : Nat) :
    Nat → Nat → Nat → Nat → RetryResult
  | 0, _, _, _ => RetryResult.outOfFuel
  | Nat.succ fuel, idx, elapsed, waited =>
      match server idx with
      | RetryResponse.ok body => RetryResult.success body (idx + 1) waited
      | RetryResponse.rateLimited ra =>
          let r := ra.getD 1
          let e := elapsed + r
          if maxTime < e then RetryResult.rateLimitRaised (idx + 1) (waited + r)
          else retry429Run server maxTime fuel (idx + 1) e (waited + r)

/-- The retry wrapper applied to a fresh call: no calls made yet, clock
and slept time at zero. -/
def retry_429 (server : Nat → RetryResponse) (maxTime fuel : Nat) : RetryResult :=
  retry429Run server maxTime fuel 0 0 0

/-- A server answering 429 with retry-after 2 seconds for the first `n`
calls and then succeeding with `body`. -/
def server429 (n : Nat) (body : Dict) : Nat → RetryResponse := fun i =>
  if i < n then RetryResponse.rateLimited (some 2) else RetryResponse.ok body

/-- A server answering every call with 429 and retry-after `r`. -/
def alw429 (r : Nat) : Nat → RetryResponse := fun _ =>
  RetryResponse.rateLimited (some r)

/- The confirmation poller (`confirmer.py`, not under src/). -/

/-- The `confirmation_status` field of an entity, when it is a string. -/
def statusOf (entity : Dict) : Option String :=
  match dlookup CONFIRMATION_STATUS entity with
  | some (Val.s t) => some t
  | _ => none

/-- Outcome of the confirmation poller: the confirmed entity with the
number of reads performed, ConfirmationTimeoutError,
ConfirmationFailedError, or exhaustion of the recursion bound. -/
inductive ConfirmResult where
  | confirmed (entity : Dict) (reads : Nat)
  | confirmationTimeout (reads : Nat)
  | confirmationFailed (entity : Dict) (reads : Nat)
  | outOfFuel

/-- Modelled from the spec: `wait_for_confirmation` (confirmer.py, not
under src/).  The poller repeatedly re-reads the entity (`server k` is
the entity returned by the k-th read); it returns the entity when its
`confirmation_status` is CONFIRMED, fails with ConfirmationFailedError
when FAILED, and otherwise sleeps the poll interval and reads again
unless the deadline elapses, in which case ConfirmationTimeoutError is
raised.  `fuel` bounds the recursion; `reads` counts reads already
made and `elapsed` is the simulated clock. -/
def waitForConfirmation (server : Nat → Dict) (maxTime interval : Nat) :
    Nat → Nat → ConfirmResult
  | 0, _ => ConfirmResult.outOfFuel
  | Nat.succ fuel, reads =>
      let entity := server reads
      if statusOf entity = some CONFIRMATION_CONFIRMED then
        ConfirmResult.confirmed entity (reads + 1)
      else if statusOf entity = some CONFIRMATION_FAILED then
        ConfirmResult.confirmationFailed entity (reads + 1)
      else if maxTime < (reads + 1) * interval then
        ConfirmResult.confirmationTimeout (reads + 1)
      else waitForConfirmation server maxTime interval fuel (reads + 1)

/- The locations endpoint (`src/archivist/locations.py`) against a model
of the remote server. -/

/-- Modelled from the spec: the remote locations endpoint is not part of
this repository.  Per the spec, entities are "identified by an opaque
server-assigned identity string once created"; the server stores the
created entity under a fresh identity and reading by identity returns
the stored entity. -/
structure ServerState where
  nextId : Nat
  store : List (String × Dict)

/-- Association-list lookup in the server store. -/
def storeGet (ident : String) : List (String × Dict) → Option Dict
  | [] => none
  | (k, d) :: rest => if k = ident then some d else storeGet ident rest

/-- Modelled from the spec: the server's handling of a create request:
a fresh non-empty identity of the shape `locations/<n>` is assigned,
the entity (request body plus identity field) is stored and returned. -/
def serverCreate (srv : ServerState) (data : Dict) : Dict × ServerState :=
  let ident := LOCATIONS_LABEL ++ SEP ++ toString srv.nextId
  let entity : Dict := ("identity", Val.s ident) :: data
  (entity, { nextId := srv.nextId + 1, store := (ident, entity) :: srv.store })

/-- Modelled from the spec: the server's handling of a read by identity:
the stored entity, or 404 when absent. -/
def serverGet (srv : ServerState) (ident : String) : Option Dict :=
  storeGet ident srv.store

/-- Python method `_LocationsClient.create_from_data` (locations.py lines
96-109): posts the request body to the locations label and wraps the
response dict in a `Location` (`Location(**self._archivist.post(...))`). -/
def LocationsClient.create_from_data (srv : ServerState) (data : Dict) :
    Location × ServerState :=
  serverCreate srv data

/-- Python method `_LocationsClient.read` (locations.py lines 158-170):
gets `<subpath>/<identity>` and wraps the response dict in a
`Location`; a missing identity surfaces as `ArchivistNotFoundError`
(modelled as the 404 error). -/
def LocationsClient.read (srv : ServerState) (identity : String) :
    Except ArchErr Location :=
  match serverGet srv identity with
  | some d => Except.ok d
  | none => Except.error (ArchErr.http 404 [])

/-- Python `deepcopy(data)`: a deep copy shares nothing with the
original, so a later in-place `pop` on the copy leaves the caller's
dict untouched; on immutable embedded values the copy is the value
itself, and the caller's dict is threaded through unchanged. -/
def deepcopy (d : Dict) : Dict := d

/-- Python method `_LocationsClient.create_if_not_exists` (locations.py
lines 111-156): deep-copies the caller's data, pops the mandatory
`selector` key from the copy (a missing key raises `KeyError`), derives
the search signature, and either returns an existing matching location
with `True` (no create issued), or creates from the copy (without the
selector) and returns the new location with `False`.  The function is
parameterised by `sig` (`utils.selector_signature`, not under src/) and
by `readBySig` (the outcome of `read_by_signature` against the server:
`none` models `ArchivistNotFoundError`).  The caller's dict after the
call is returned as the last component. -/
def LocationsClient.create_if_not_exists (srv : ServerState)
    (sig : Val → Dict → Dict × Dict) (readBySig : Dict → Dict → Option Location)
    (data : Dict) :
    Except Unit ((Location × Bool) × ServerState × Dict) :=
  match dpop "selector" (deepcopy data) with
  | Except.error e => Except.error e
  | Except.ok (selector, rest) =>
      let pa := sig selector rest
      match readBySig pa.1 pa.2 with
      | some location => Except.ok ((location, true), srv, data)
      | none =>
          let created := LocationsClient.create_from_data srv rest
          Except.ok ((created.1, false), created.2, data)

/- Helper lemmas. -/

/-- Popping a key succeeds exactly on dicts containing it. -/
theorem dmem_of_dpop (k : String) (d : Dict) (v : Val) (rest : Dict)
    (h : dpop k d = Except.ok (v, rest)) : dmem k d = true := by
  induction d generalizing v rest with
  | nil => simp [dpop] at h
  | cons hd tl ih =>
      obtain ⟨k', w⟩ := hd
      by_cases hk : k' = k
      · simp [dmem, dlookup, hk]
      · simp only [dpop, if_neg hk] at h
        cases htl : dpop k tl with
        | error e => rw [htl] at h; exact absurd h (by simp)
        | ok p =>
            obtain ⟨w', rest'⟩ := p
            simp only [dmem, dlookup, if_neg hk]
            simpa [dmem] using ih w' rest' htl

/-- Reading the auth property never touches the request trace or the
response ring buffer. -/
theorem authGet_preserves (s : ArchState) (now : Int) (fetch : TokenResponse)
    (o : AuthOutcome) (h : Archivist.authGet s now fetch = Except.ok o) :
    o.state.ring = s.ring ∧ o.state.trace = s.trace := by
  unfold Archivist.authGet at h
  by_cases hc : s.client_id.isSome ∧ s.expires_at < now
  · rw [if_pos hc] at h
    cases ht : fetch.access_token with
    | none => rw [ht] at h; exact absurd h (by simp)
    | some a => rw [ht] at h; cases h; simp
  · rw [if_neg hc] at h; cases h; simp

/-- Building headers never touches the request trace or the response
ring buffer. -/
theorem addHeaders_preserves (s : ArchState) (now : Int) (fetch : TokenResponse)
    (headers : Option (List (String × String))) (hs : List (String × String))
    (s' : ArchState)
    (h : Archivist.addHeaders s now fetch headers = Except.ok (hs, s')) :
    s'.ring = s.ring ∧ s'.trace = s.trace := by
  unfold Archivist.addHeaders at h
  cases ho : Archivist.authGet s now fetch with
  | error e => rw [ho] at h; exact absurd h (by simp)
  | ok o =>
      rw [ho] at h
      dsimp only at h
      have hp := authGet_preserves s now fetch o ho
      cases ht : o.token with
      | some a => rw [ht] at h; dsimp only at h; cases h; exact hp
      | none => rw [ht] at h; dsimp only at h; cases h; exact hp

/- Claim theorems. -/

/-- C8: for every Location mapping, the `name` accessor returns the
value stored under the key `display_name` when that key is present, and
returns `none` rather than raising when the key is absent. -/
theorem location_name_spec (l : Location) :
    (∀ v, dlookup "display_name" l = some v → Location.name l = some v) ∧
    (dlookup "display_name" l = none → Location.name l = none) := by
  constructor
  · intro v h; simp [Location.name, getItem, h]
  · intro h; simp [Location.name, getItem, h]

/-- Witness for C8 at concrete mappings with and without the key. -/
theorem location_name_spec_witness :
    Location.name [("display_name", Val.s "Macclesfield")] = some (Val.s "Macclesfield") ∧
    Location.name [("description", Val.s "x")] = none :=
  ⟨(location_name_spec [("display_name", Val.s "Macclesfield")]).1 (Val.s "Macclesfield") rfl,
   (location_name_spec [("description", Val.s "x")]).2 rfl⟩

/-- C9: for a client holding a plain string token or None (no
client-credentials pair), reading the `auth` property returns exactly
the stored value, leaves the state unchanged and never triggers a
token-fetch call, for every current time and every would-be fetch
response. -/
theorem auth_plain_token_spec (s : ArchState) (now : Int) (fetch : TokenResponse)
    (h : s.client_id = none) :
    Archivist.authGet s now fetch =
      Except.ok { token := s.auth, state := s, refreshed := false } := by
  simp [Archivist.authGet, h]

/-- Witness for C9 at a concrete token-holding client far in the future. -/
theorem auth_plain_token_spec_witness :
    Archivist.authGet
        { url := "u", root := "u/archivist", auth := some "tok", client_id := none
          client_secret := none, expires_at := 0, max_time := 300, ring := [], trace := [] }
        1000000 { access_token := some "other", expires_in := 100 } =
      Except.ok
        { token := some "tok"
          state :=
            { url := "u", root := "u/archivist", auth := some "tok", client_id := none
              client_secret := none, expires_at := 0, max_time := 300, ring := [], trace := [] }
          refreshed := false } :=
  auth_plain_token_spec _ 1000000 _ rfl

/-- C6: constructing a client whose URL ends in a trailing slash raises
`ArchivistError` during construction, and for every other URL the
construction succeeds; in both cases no network request is issued (the
trace and the ring buffer of a constructed client are empty). -/
theorem init_trailing_slash_spec (url : String) (auth : AuthArg) (mt : Int) :
    (endswith url "/" = true →
      Archivist.init url auth mt =
        Except.error (ArchErr.archivist ("URL " ++ url ++ " has trailing /"))) ∧
    (endswith url "/" = false →
      ∃ s, Archivist.init url auth mt = Except.ok s ∧ s.trace = [] ∧ s.ring = []) := by
  constructor
  · intro h; simp [Archivist.init, h]
  · intro h
    unfold Archivist.init
    rw [if_neg (by simp [h])]
    exact ⟨_, rfl, rfl, rfl⟩

/-- Witness for C6 at a slash-terminated and a slash-free URL. -/
theorem init_trailing_slash_spec_witness :
    Archivist.init "https://app.rkvst.io/" AuthArg.noAuth 300 =
      Except.error (ArchErr.archivist "URL https://app.rkvst.io/ has trailing /") ∧
    ∃ s, Archivist.init "https://app.rkvst.io" AuthArg.noAuth 300 = Except.ok s ∧
      s.trace = [] ∧ s.ring = [] :=
  ⟨(init_trailing_slash_spec "https://app.rkvst.io/" AuthArg.noAuth 300).1 (by decide),
   (init_trailing_slash_spec "https://app.rkvst.io" AuthArg.noAuth 300).2 (by decide)⟩

/-- Sanity check relating the embedded `endswith` to the standard
library's suffix predicate on the underlying characters. -/
theorem endswith_iff (s suffix : String) :
    endswith s suffix = true ↔ suffix.data <:+ s.data := by
  simp [endswith, List.isSuffixOf_iff_suffix]

/-- C10: for every data mapping containing a `selector` key,
`create_if_not_exists` leaves the caller's mapping unchanged (the
`selector` key is still present afterwards, since only a deep copy is
popped); it returns the existing location with `True` and issues no
create when a matching location is found, and the location newly
created from the copy minus the selector with `False` otherwise. -/
theorem create_if_not_exists_spec (srv : ServerState)
    (sig : Val → Dict → Dict × Dict) (readBySig : Dict → Dict → Option Location)
    (data : Dict) (selector : Val) (rest : Dict)
    (h : dpop "selector" data = Except.ok (selector, rest)) :
    dmem "selector" data = true ∧
    (∀ loc, readBySig (sig selector rest).1 (sig selector rest).2 = some loc →
      LocationsClient.create_if_not_exists srv sig readBySig data =
        Except.ok ((loc, true), srv, data)) ∧
    (readBySig (sig selector rest).1 (sig selector rest).2 = none →
      LocationsClient.create_if_not_exists srv sig readBySig data =
        Except.ok (((LocationsClient.create_from_data srv rest).1, false),
          (LocationsClient.create_from_data srv rest).2, data)) := by
  refine ⟨dmem_of_dpop "selector" data selector rest h, ?_, ?_⟩
  · intro loc hfound
    unfold LocationsClient.create_if_not_exists
    rw [show deepcopy data = data from rfl, h]
    dsimp only
    rw [hfound]
  · intro hnone
    unfold LocationsClient.create_if_not_exists
    rw [show deepcopy data = data from rfl, h]
    dsimp only
    rw [hnone]

/-- Witness for C10 at a concrete mapping holding a selector, with a
finder that always misses (so a create is issued from the copy). -/
theorem create_if_not_exists_spec_witness :
    dmem "selector" [("selector", Val.arr [Val.s "display_name"]),
      ("display_name", Val.s "Paris")] = true ∧
    (∀ loc, (fun (_ : Dict) (_ : Dict) => (none : Option Location)) [] [] = some loc →
      LocationsClient.create_if_not_exists ⟨0, []⟩ (fun _ d => (d, []))
        (fun _ _ => none)
        [("selector", Val.arr [Val.s "display_name"]), ("display_name", Val.s "Paris")] =
        Except.ok ((loc, true), ⟨0, []⟩,
          [("selector", Val.arr [Val.s "display_name"]), ("display_name", Val.s "Paris")])) ∧
    ((fun (_ : Dict) (_ : Dict) => (none : Option Location)) [] [] = none →
      LocationsClient.create_if_not_exists ⟨0, []⟩ (fun _ d => (d, []))
        (fun _ _ => none)
        [("selector", Val.arr [Val.s "display_name"]), ("display_name", Val.s "Paris")] =
        Except.ok (((LocationsClient.create_from_data ⟨0, []⟩
            [("display_name", Val.s "Paris")]).1, false),
          (LocationsClient.create_from_data ⟨0, []⟩
            [("display_name", Val.s "Paris")]).2,
          [("selector", Val.arr [Val.s "display_name"]), ("display_name", Val.s "Paris")])) :=
  create_if_not_exists_spec ⟨0, []⟩ (fun _ d => (d, [])) (fun _ _ => none)
    [("selector", Val.arr [Val.s "display_name"]), ("display_name", Val.s "Paris")]
    (Val.arr [Val.s "display_name"]) [("display_name", Val.s "Paris")] rfl

/-- C5 (amended): whenever the client holds a client-credentials pair
and the server-reported lifetime is at least the 10-second safety
margin, every successful read of the `auth` property at time `t`
returns a state whose recorded expiry instant is no earlier than `t`
(the token is refreshed whenever the stored expiry instant is strictly
in the past), and a refresh stores the server-reported expiry minus 10
seconds. -/
theorem auth_refresh_margin_spec (s : ArchState) (now : Int)
    (fetch : TokenResponse) (o : AuthOutcome)
    (hid : s.client_id.isSome = true)
    (hexp : 10 ≤ fetch.expires_in)
    (h : Archivist.authGet s now fetch = Except.ok o) :
    now ≤ o.state.expires_at ∧
    (o.refreshed = true → o.state.expires_at = now + fetch.expires_in - 10) := by
  unfold Archivist.authGet at h
  by_cases hc : s.expires_at < now
  · rw [if_pos ⟨by simpa using hid, hc⟩] at h
    cases ht : fetch.access_token with
    | none => rw [ht] at h; exact absurd h (by simp)
    | some a =>
        rw [ht] at h
        cases h
        constructor
        · dsimp only; omega
        · intro _; rfl
  · rw [if_neg (by intro hco; exact hc hco.2)] at h
    cases h
    constructor
    · exact le_of_not_lt hc
    · intro hr; exact absurd hr (by simp)

/-- Witness for C5 at a freshly constructed machine-credential client
reading the property at time 5 with a 15-second token lifetime. -/
theorem auth_refresh_margin_spec_witness :
    (5 : Int) ≤
      ({ token := some "tok"
         state :=
           { url := "u", root := "u/archivist", auth := some "tok"
             client_id := some "cid", client_secret := some "sec"
             expires_at := 10, max_time := 300, ring := [], trace := [] }
         refreshed := true } : AuthOutcome).state.expires_at ∧
    (({ token := some "tok"
        state :=
          { url := "u", root := "u/archivist", auth := some "tok"
            client_id := some "cid", client_secret := some "sec"
            expires_at := 10, max_time := 300, ring := [], trace := [] }
        refreshed := true } : AuthOutcome).refreshed = true →
      ({ token := some "tok"
         state :=
           { url := "u", root := "u/archivist", auth := some "tok"
             client_id := some "cid", client_secret := some "sec"
             expires_at := 10, max_time := 300, ring := [], trace := [] }
         refreshed := true } : AuthOutcome).state.expires_at = 5 + 15 - 10) :=
  auth_refresh_margin_spec
    { url := "u", root := "u/archivist", auth := none
      client_id := some "cid", client_secret := some "sec"
      expires_at := 0, max_time := 300, ring := [], trace := [] }
    5 { access_token := some "tok", expires_in := 15 } _ rfl (by decide) rfl

/-- Counterexample for C5 as stated: a reachable client (constructed
from client credentials, then refreshed at time 5 with a 15-second
lifetime) read again exactly at the stored expiry instant t = 10
returns a token whose recorded expiry equals t and is not strictly
later than t. -/
theorem auth_expiry_boundary_counterexample :
    Archivist.init "u" (AuthArg.machine "cid" "sec") 300 =
      Except.ok
        { url := "u", root := "u" ++ SEP ++ ROOT, auth := none, client_id := some "cid"
          client_secret := some "sec", expires_at := 0, max_time := 300
          ring := [], trace := [] } ∧
    Archivist.authGet
        { url := "u", root := "u" ++ SEP ++ ROOT, auth := none, client_id := some "cid"
          client_secret := some "sec", expires_at := 0, max_time := 300
          ring := [], trace := [] }
        5 { access_token := some "tok", expires_in := 15 } =
      Except.ok
        { token := some "tok"
          state :=
            { url := "u", root := "u" ++ SEP ++ ROOT, auth := some "tok"
              client_id := some "cid", client_secret := some "sec", expires_at := 10
              max_time := 300, ring := [], trace := [] }
          refreshed := true } ∧
    Archivist.authGet
        { url := "u", root := "u" ++ SEP ++ ROOT, auth := some "tok"
          client_id := some "cid", client_secret := some "sec", expires_at := 10
          max_time := 300, ring := [], trace := [] }
        10 { access_token := some "tok2", expires_in := 100 } =
      Except.ok
        { token := some "tok"
          state :=
            { url := "u", root := "u" ++ SEP ++ ROOT, auth := some "tok"
              client_id := some "cid", client_secret := some "sec", expires_at := 10
              max_time := 300, ring := [], trace := [] }
          refreshed := false } ∧
    (some "tok").isSome = true ∧
    ¬ ((10 : Int) <
      ({ token := some "tok"
         state :=
           { url := "u", root := "u" ++ SEP ++ ROOT, auth := some "tok"
             client_id := some "cid", client_secret := some "sec", expires_at := 10
             max_time := 300, ring := [], trace := [] }
         refreshed := false } : AuthOutcome).state.expires_at) := by
  refine ⟨rfl, rfl, rfl, rfl, by decide⟩

/-- When the auth property yields a token, `_add_headers` sets the
bearer authorization header on the caller's headers. -/
theorem addHeaders_bearer (s : ArchState) (now : Int) (fetch : TokenResponse)
    (headers : Option (List (String × String))) (o : AuthOutcome) (a : String)
    (h : Archivist.authGet s now fetch = Except.ok o) (ht : o.token = some a) :
    Archivist.addHeaders s now fetch headers =
      Except.ok (hset "authorization" ("Bearer " ++ a.trim) (headers.getD []), o.state) := by
  unfold Archivist.addHeaders
  rw [h]
  dsimp only
  rw [ht]

/-- The binding just set by `hset` is among the resulting headers. -/
theorem hset_mem (k v : String) (hs : List (String × String)) :
    (k, v) ∈ hset k v hs := by
  simp [hset]

/-- C3 (amended): every JSON-mode transport request (POST in JSON mode,
PATCH, DELETE, and the multipart file upload) carries the current valid
token, refreshed first if expired, as a bearer authorization header
whenever a token is available; the form-encoded POST mode passes no
headers at all to the session. -/
theorem bearer_header_spec (s : ArchState) (now : Int) (fetch : TokenResponse)
    (o : AuthOutcome) (a : String) (resp : HttpResponse) (maxlen : Nat)
    (url : String) (request : Dict) (headers : Option (List (String × String)))
    (filename mtype form ctype : String)
    (h : Archivist.authGet s now fetch = Except.ok o) (ht : o.token = some a) :
    ((Archivist.post s now fetch resp maxlen url (some request) headers false).1.trace =
        o.state.trace ++
          [{ method := "POST", url := url
             headers := hset "authorization" ("Bearer " ++ a.trim) (headers.getD [])
             body := ReqBody.jsonBody (some request) }] ∧
      ("authorization", "Bearer " ++ a.trim) ∈
        hset "authorization" ("Bearer " ++ a.trim) (headers.getD [])) ∧
    ((Archivist.patch s now fetch resp maxlen url request headers).1.trace =
        o.state.trace ++
          [{ method := "PATCH", url := url
             headers := hset "authorization" ("Bearer " ++ a.trim) (headers.getD [])
             body := ReqBody.jsonBody (some request) }]) ∧
    ((Archivist.delete s now fetch resp maxlen url headers).1.trace =
        o.state.trace ++
          [{ method := "DELETE", url := url
             headers := hset "authorization" ("Bearer " ++ a.trim) (headers.getD [])
             body := ReqBody.noBody }]) ∧
    ((Archivist.post_file s now fetch resp maxlen url filename mtype form ctype).1.trace =
        o.state.trace ++
          [{ method := "POST", url := url
             headers := hset "authorization" ("Bearer " ++ a.trim)
               [("content-type", ctype)]
             body := ReqBody.multipart form filename mtype }]) := by
  refine ⟨⟨?_, hset_mem _ _ _⟩, ?_, ?_, ?_⟩
  · unfold Archivist.post
    rw [addHeaders_bearer s now fetch headers o a h ht]
    dsimp only
    cases parseResponse resp <;> rfl
  · unfold Archivist.patch
    rw [addHeaders_bearer s now fetch headers o a h ht]
    dsimp only
    cases parseResponse resp <;> rfl
  · unfold Archivist.delete
    rw [addHeaders_bearer s now fetch headers o a h ht]
    dsimp only
    cases parseResponse resp <;> rfl
  · unfold Archivist.post_file
    dsimp only
    rw [addHeaders_bearer s now fetch (some [("content-type", ctype)]) o a h ht]
    dsimp only
    cases parseResponse resp <;> rfl

/-- Witness for C3 at a concrete plain-token client, where the token is
available without any refresh. -/
theorem bearer_header_spec_witness :
    ((Archivist.post
        { url := "u", root := "u/archivist", auth := some "tok", client_id := none
          client_secret := none, expires_at := 0, max_time := 300, ring := [], trace := [] }
        0 { access_token := none, expires_in := 0 } { status := 200, body := [] }
        10 "u/archivist/v2/locations" (some []) none false).1.trace =
      [] ++
        [{ method := "POST", url := "u/archivist/v2/locations"
           headers := hset "authorization" ("Bearer " ++ "tok".trim) ((none : Option (List (String × String))).getD [])
           body := ReqBody.jsonBody (some []) }] ∧
      ("authorization", "Bearer " ++ "tok".trim) ∈
        hset "authorization" ("Bearer " ++ "tok".trim) ((none : Option (List (String × String))).getD [])) ∧
    ((Archivist.patch
        { url := "u", root := "u/archivist", auth := some "tok", client_id := none
          client_secret := none, expires_at := 0, max_time := 300, ring := [], trace := [] }
        0 { access_token := none, expires_in := 0 } { status := 200, body := [] }
        10 "u/archivist/v2/locations" [] none).1.trace =
      [] ++
        [{ method := "PATCH", url := "u/archivist/v2/locations"
           headers := hset "authorization" ("Bearer " ++ "tok".trim) ((none : Option (List (String × String))).getD [])
           body := ReqBody.jsonBody (some []) }]) ∧
    ((Archivist.delete
        { url := "u", root := "u/archivist", auth := some "tok", client_id := none
          client_secret := none, expires_at := 0, max_time := 300, ring := [], trace := [] }
        0 { access_token := none, expires_in := 0 } { status := 200, body := [] }
        10 "u/archivist/v2/locations" none).1.trace =
      [] ++
        [{ method := "DELETE", url := "u/archivist/v2/locations"
           headers := hset "authorization" ("Bearer " ++ "tok".trim) ((none : Option (List (String × String))).getD [])
           body := ReqBody.noBody }]) ∧
    ((Archivist.post_file
        { url := "u", root := "u/archivist", auth := some "tok", client_id := none
          client_secret := none, expires_at := 0, max_time := 300, ring := [], trace := [] }
        0 { access_token := none, expires_in := 0 } { status := 200, body := [] }
        10 "u/archivist/v2/locations" "f.jpg" "image/jpg" "file" "multipart/form-data").1.trace =
      [] ++
        [{ method := "POST", url := "u/archivist/v2/locations"
           headers := hset "authorization" ("Bearer " ++ "tok".trim)
             [("content-type", "multipart/form-data")]
           body := ReqBody.multipart "file" "f.jpg" "image/jpg" }]) :=
  bearer_header_spec
    { url := "u", root := "u/archivist", auth := some "tok", client_id := none
      client_secret := none, expires_at := 0, max_time := 300, ring := [], trace := [] }
    0 { access_token := none, expires_in := 0 }
    { token := some "tok"
      state :=
        { url := "u", root := "u/archivist", auth := some "tok", client_id := none
          client_secret := none, expires_at := 0, max_time := 300, ring := [], trace := [] }
      refreshed := false }
    "tok" { status := 200, body := [] } 10 "u/archivist/v2/locations" [] none
    "f.jpg" "image/jpg" "file" "multipart/form-data" rfl rfl

/-- Counterexample for C3 as stated: a form-encoded POST from a client
holding an auth token issues a request with no headers at all, so no
bearer authorization header is attached. -/
theorem post_form_no_bearer_counterexample :
    ({ url := "u", root := "u/archivist", auth := some "tok", client_id := none
       client_secret := none, expires_at := 0, max_time := 300, ring := [], trace := [] } :
        ArchState).auth = some "tok" ∧
    (Archivist.post
        { url := "u", root := "u/archivist", auth := some "tok", client_id := none
          client_secret := none, expires_at := 0, max_time := 300, ring := [], trace := [] }
        0 { access_token := none, expires_in := 0 }
        { status := 200, body := [] } 10 "u" (some []) none true).1.trace =
      [{ method := "POST", url := "u", headers := []
         body := ReqBody.formBody (some []) }] :=
  ⟨rfl, rfl⟩

/-- C4 (amended): PATCH, DELETE and the multipart file upload record the
raw response as the new first element of the fixed-size ring buffer,
evicting the oldest when full (the buffer never exceeds its capacity);
POST records nothing, in its JSON mode as well as in its form-encoded
mode. -/
theorem ring_buffer_spec (s : ArchState) (now : Int) (fetch : TokenResponse)
    (headers : Option (List (String × String))) (hs hs2 : List (String × String))
    (s' s2 : ArchState) (resp : HttpResponse) (maxlen : Nat) (url : String)
    (request : Dict) (filename mtype form ctype : String)
    (h : Archivist.addHeaders s now fetch headers = Except.ok (hs, s'))
    (h2 : Archivist.addHeaders s now fetch (some [("content-type", ctype)]) =
      Except.ok (hs2, s2))
    (hm : 0 < maxlen) :
    ((Archivist.patch s now fetch resp maxlen url request headers).1.ring =
        List.take maxlen (resp :: s.ring) ∧
      (Archivist.patch s now fetch resp maxlen url request headers).1.ring.head? =
        some resp ∧
      (Archivist.patch s now fetch resp maxlen url request headers).1.ring.length ≤
        maxlen) ∧
    ((Archivist.delete s now fetch resp maxlen url headers).1.ring =
        List.take maxlen (resp :: s.ring) ∧
      (Archivist.delete s now fetch resp maxlen url headers).1.ring.head? =
        some resp) ∧
    ((Archivist.post_file s now fetch resp maxlen url filename mtype form ctype).1.ring =
        List.take maxlen (resp :: s.ring) ∧
      (Archivist.post_file s now fetch resp maxlen url filename mtype form ctype).1.ring.head? =
        some resp) ∧
    ((Archivist.post s now fetch resp maxlen url (some request) headers false).1.ring =
        s.ring) ∧
    ((Archivist.post s now fetch resp maxlen url (some request) headers true).1.ring =
        s.ring) := by
  obtain ⟨hr, -⟩ := addHeaders_preserves s now fetch headers hs s' h
  obtain ⟨hr2, -⟩ := addHeaders_preserves s now fetch (some [("content-type", ctype)]) hs2 s2 h2
  obtain ⟨m, rfl⟩ : ∃ m, maxlen = m + 1 :=
    ⟨maxlen - 1, (Nat.succ_pred_eq_of_pos hm).symm⟩
  have hpatch :
      (Archivist.patch s now fetch resp (m + 1) url request headers).1.ring =
        List.take (m + 1) (resp :: s.ring) := by
    unfold Archivist.patch
    rw [h]
    dsimp only
    cases parseResponse resp <;> simp [ringAppendleft, hr]
  have hdel :
      (Archivist.delete s now fetch resp (m + 1) url headers).1.ring =
        List.take (m + 1) (resp :: s.ring) := by
    unfold Archivist.delete
    rw [h]
    dsimp only
    cases parseResponse resp <;> simp [ringAppendleft, hr]
  have hfile :
      (Archivist.post_file s now fetch resp (m + 1) url filename mtype form ctype).1.ring =
        List.take (m + 1) (resp :: s.ring) := by
    unfold Archivist.post_file
    dsimp only
    rw [h2]
    dsimp only
    cases parseResponse resp <;> simp [ringAppendleft, hr2]
  have htake : List.take (m + 1) (resp :: s.ring) = resp :: List.take m s.ring :=
    List.take_succ_cons
  refine ⟨⟨hpatch, ?_, ?_⟩, ⟨hdel, ?_⟩, ⟨hfile, ?_⟩, ?_, ?_⟩
  · rw [hpatch, htake]; rfl
  · rw [hpatch]; exact List.length_take_le _ _
  · rw [hdel, htake]; rfl
  · rw [hfile, htake]; rfl
  · unfold Archivist.post
    rw [h]
    dsimp only
    cases parseResponse resp <;> simp [hr]
  · unfold Archivist.post
    dsimp only
    cases parseResponse resp <;> rfl

/-- Witness for C4 at a concrete client with an empty buffer of
capacity 2. -/
theorem ring_buffer_spec_witness :
    ((Archivist.patch
        { url := "u", root := "u/archivist", auth := none, client_id := none
          client_secret := none, expires_at := 0, max_time := 300, ring := [], trace := [] }
        0 { access_token := none, expires_in := 0 } { status := 200, body := [] }
        2 "u/x" [] none).1.ring =
        List.take 2 ({ status := 200, body := [] } :: ([] : List HttpResponse)) ∧
      (Archivist.patch
        { url := "u", root := "u/archivist", auth := none, client_id := none
          client_secret := none, expires_at := 0, max_time := 300, ring := [], trace := [] }
        0 { access_token := none, expires_in := 0 } { status := 200, body := [] }
        2 "u/x" [] none).1.ring.head? = some { status := 200, body := [] } ∧
      (Archivist.patch
        { url := "u", root := "u/archivist", auth := none, client_id := none
          client_secret := none, expires_at := 0, max_time := 300, ring := [], trace := [] }
        0 { access_token := none, expires_in := 0 } { status := 200, body := [] }
        2 "u/x" [] none).1.ring.length ≤ 2) ∧
    ((Archivist.delete
        { url := "u", root := "u/archivist", auth := none, client_id := none
          client_secret := none, expires_at := 0, max_time := 300, ring := [], trace := [] }
        0 { access_token := none, expires_in := 0 } { status := 200, body := [] }
        2 "u/x" none).1.ring =
        List.take 2 ({ status := 200, body := [] } :: ([] : List HttpResponse)) ∧
      (Archivist.delete
        { url := "u", root := "u/archivist", auth := none, client_id := none
          client_secret := none, expires_at := 0, max_time := 300, ring := [], trace := [] }
        0 { access_token := none, expires_in := 0 } { status := 200, body := [] }
        2 "u/x" none).1.ring.head? = some { status := 200, body := [] }) ∧
    ((Archivist.post_file
        { url := "u", root := "u/archivist", auth := none, client_id := none
          client_secret := none, expires_at := 0, max_time := 300, ring := [], trace := [] }
        0 { access_token := none, expires_in := 0 } { status := 200, body := [] }
        2 "u/x" "f.jpg" "image/jpg" "file" "multipart/form-data").1.ring =
        List.take 2 ({ status := 200, body := [] } :: ([] : List HttpResponse)) ∧
      (Archivist.post_file
        { url := "u", root := "u/archivist", auth := none, client_id := none
          client_secret := none, expires_at := 0, max_time := 300, ring := [], trace := [] }
        0 { access_token := none, expires_in := 0 } { status := 200, body := [] }
        2 "u/x" "f.jpg" "image/jpg" "file" "multipart/form-data").1.ring.head? =
        some { status := 200, body := [] }) ∧
    ((Archivist.post
        { url := "u", root := "u/archivist", auth := none, client_id := none
          client_secret := none, expires_at := 0, max_time := 300, ring := [], trace := [] }
        0 { access_token := none, expires_in := 0 } { status := 200, body := [] }
        2 "u/x" (some []) none false).1.ring = []) ∧
    ((Archivist.post
        { url := "u", root := "u/archivist", auth := none, client_id := none
          client_secret := none, expires_at := 0, max_time := 300, ring := [], trace := [] }
        0 { access_token := none, expires_in := 0 } { status := 200, body := [] }
        2 "u/x" (some []) none true).1.ring = []) :=
  ring_buffer_spec
    { url := "u", root := "u/archivist", auth := none, client_id := none
      client_secret := none, expires_at := 0, max_time := 300, ring := [], trace := [] }
    0 { access_token := none, expires_in := 0 } none []
    [("content-type", "multipart/form-data")]
    { url := "u", root := "u/archivist", auth := none, client_id := none
      client_secret := none, expires_at := 0, max_time := 300, ring := [], trace := [] }
    { url := "u", root := "u/archivist", auth := none, client_id := none
      client_secret := none, expires_at := 0, max_time := 300, ring := [], trace := [] }
    { status := 200, body := [] } 2 "u/x" [] "f.jpg" "image/jpg" "file"
    "multipart/form-data" rfl rfl (by decide)

/-- Counterexample for C4 as stated: a successful POST leaves the ring
buffer empty, so the most recent response is not its first element. -/
theorem post_ring_unchanged_counterexample :
    (Archivist.post
        { url := "u", root := "u/archivist", auth := none, client_id := none
          client_secret := none, expires_at := 0, max_time := 300, ring := [], trace := [] }
        0 { access_token := none, expires_in := 0 }
        { status := 200, body := [] } 10 "u" (some []) none false).2 =
      Except.ok [] ∧
    (Archivist.post
        { url := "u", root := "u/archivist", auth := none, client_id := none
          client_secret := none, expires_at := 0, max_time := 300, ring := [], trace := [] }
        0 { access_token := none, expires_in := 0 }
        { status := 200, body := [] } 10 "u" (some []) none false).1.ring = [] ∧
    (Archivist.post
        { url := "u", root := "u/archivist", auth := none, client_id := none
          client_secret := none, expires_at := 0, max_time := 300, ring := [], trace := [] }
        0 { access_token := none, expires_in := 0 }
        { status := 200, body := [] } 10 "u" (some []) none false).1.ring.head? =
      none :=
  ⟨rfl, rfl, rfl⟩

/-- Invariant run of the retry loop over the 429-then-success server:
starting after k rate-limited calls (clock and slept time at 2k), the
loop ends in success after the remaining N - k retries plus the final
call, having slept 2N seconds in total. -/
theorem retry429_success_aux (N : Nat) (body : Dict) (maxTime : Nat)
    (hN : 2 * N ≤ maxTime) :
    ∀ f k, N = k + f →
      retry429Run (server429 N body) maxTime (f + 1) k (2 * k) (2 * k) =
        RetryResult.success body (N + 1) (2 * N) := by
  intro f
  induction f with
  | zero =>
      intro k hk
      have hkN : k = N := by omega
      subst hkN
      simp [retry429Run, server429]
  | succ f ih =>
      intro k hk
      have hkN : k < N := by omega
      have hstep : ¬ maxTime < 2 * k + 2 := by omega
      have harith : 2 * k + 2 = 2 * (k + 1) := by ring
      simp only [retry429Run, server429, if_pos hkN, Option.getD_some]
      rw [if_neg hstep, harith]
      exact ih (k + 1) (by omega)

/-- Invariant run of the retry loop over the always-429 server: with
positive retry-after and enough remaining budget-crossing steps, the
loop ends by re-raising the rate-limit error. -/
theorem retry429_exhaust_aux (r maxTime : Nat) (hr : 1 ≤ r) :
    ∀ f elapsed idx waited, maxTime < elapsed + f * r → 1 ≤ f →
      ∃ c w, retry429Run (alw429 r) maxTime f idx elapsed waited =
        RetryResult.rateLimitRaised c w := by
  intro f
  induction f with
  | zero => intro _ _ _ _ h1; omega
  | succ f ih =>
      intro elapsed idx waited hlt _
      simp only [retry429Run, alw429, Option.getD_some]
      by_cases hc : maxTime < elapsed + r
      · rw [if_pos hc]; exact ⟨_, _, rfl⟩
      · rw [if_neg hc]
        rcases Nat.eq_zero_or_pos f with hf0 | hf1
        · subst hf0
          have : maxTime < elapsed + r := by
            have h1 : (0 + 1) * r = r := by ring
            rw [h1] at hlt
            omega
          exact absurd this hc
        · refine ih (elapsed + r) (idx + 1) (waited + r) ?_ hf1
          have h2 : elapsed + (f + 1) * r = elapsed + r + f * r := by ring
          omega

/-- C1: against a server answering 429 with retry-after 2 seconds for
the first N calls and then succeeding, the retry wrapper performs
exactly N+1 underlying calls with a total slept time of 2*N seconds
(hence at least 2*N); against a server that keeps answering 429 past
the maximum elapsed time (default 300 seconds), the RateLimitError is
re-raised to the caller. -/
theorem retry_429_spec (N : Nat) (body : Dict) (r f : Nat)
    (hN : 2 * N ≤ MAX_TIME) (hr : 1 ≤ r) (hf : MAX_TIME < f * r) (hf1 : 1 ≤ f) :
    (retry_429 (server429 N body) MAX_TIME (N + 1) =
        RetryResult.success body (N + 1) (2 * N) ∧
      2 * N ≤ 2 * N) ∧
    (∃ c w, retry_429 (alw429 r) MAX_TIME f =
        RetryResult.rateLimitRaised c w) := by
  constructor
  · refine ⟨?_, le_refl _⟩
    have h := retry429_success_aux N body MAX_TIME hN N 0 (by omega)
    simpa [retry_429] using h
  · have h := retry429_exhaust_aux r MAX_TIME hr f 0 0 0 (by simpa using hf) hf1
    simpa [retry_429] using h

/-- Witness for C1 with N = 3 blocked calls and, for the exhaustion
part, a server always rate-limiting with retry-after 2 against the
default 300-second budget. -/
theorem retry_429_spec_witness :
    (retry_429 (server429 3 []) MAX_TIME 4 =
        RetryResult.success [] 4 6 ∧ (6 : Nat) ≤ 6) ∧
    (∃ c w, retry_429 (alw429 2) MAX_TIME 151 =
        RetryResult.rateLimitRaised c w) :=
  retry_429_spec 3 [] 2 151 (by decide) (by decide) (by decide) (by decide)

/-- Invariant run of the confirmation poller over a server that is
PENDING for the first K reads and CONFIRMED on the K-th: starting after
k pending reads, the poller ends confirmed after K + 1 reads in all. -/
theorem confirm_success_aux (server : Nat → Dict) (K maxTime interval : Nat)
    (hpend : ∀ i, i < K → statusOf (server i) = some CONFIRMATION_PENDING)
    (hconf : statusOf (server K) = some CONFIRMATION_CONFIRMED)
    (hKt : K * interval ≤ maxTime) :
    ∀ f k, K = k + f →
      waitForConfirmation server maxTime interval (f + 1) k =
        ConfirmResult.confirmed (server K) (K + 1) := by
  intro f
  induction f with
  | zero =>
      intro k hk
      have hkK : k = K := by omega
      subst hkK
      simp [waitForConfirmation, hconf]
  | succ f ih =>
      intro k hk
      have hkK : k < K := by omega
      have hdeadline : ¬ maxTime < (k + 1) * interval := by
        have : (k + 1) * interval ≤ K * interval :=
          Nat.mul_le_mul_right interval (by omega)
        omega
      simp only [waitForConfirmation, hpend k hkK]
      rw [if_neg (by decide), if_neg (by decide), if_neg hdeadline]
      exact ih (k + 1) (by omega)

/-- Invariant run of the confirmation poller over an always-PENDING
server: with a positive poll interval and enough reads to cross the
deadline, the poller ends with the confirmation timeout. -/
theorem confirm_timeout_aux (server : Nat → Dict) (maxTime interval : Nat)
    (hpend : ∀ i, statusOf (server i) = some CONFIRMATION_PENDING) :
    ∀ f k, maxTime < (k + f) * interval → 1 ≤ f →
      ∃ rds, waitForConfirmation server maxTime interval f k =
        ConfirmResult.confirmationTimeout rds := by
  intro f
  induction f with
  | zero => intro _ _ h1; omega
  | succ f ih =>
      intro k hlt _
      simp only [waitForConfirmation, hpend k]
      rw [if_neg (by decide), if_neg (by decide)]
      by_cases hc : maxTime < (k + 1) * interval
      · rw [if_pos hc]; exact ⟨_, rfl⟩
      · rw [if_neg hc]
        rcases Nat.eq_zero_or_pos f with hf0 | hf1
        · subst hf0
          exact absurd (by simpa using hlt) hc
        · refine ih (k + 1) ?_ hf1
          have harith : k + 1 + f = k + (f + 1) := by omega
          rw [harith]
          exact hlt

/-- C2: against an entity whose confirmation status is PENDING for the
first K reads and then CONFIRMED, the poller returns the CONFIRMED
entity after exactly K + 1 reads; against an entity that stays PENDING
past the deadline, it fails with ConfirmationTimeoutError instead. -/
theorem wait_for_confirmation_spec (server pendServer : Nat → Dict)
    (K maxTime interval f : Nat)
    (hpend : ∀ i, i < K → statusOf (server i) = some CONFIRMATION_PENDING)
    (hconf : statusOf (server K) = some CONFIRMATION_CONFIRMED)
    (hKt : K * interval ≤ maxTime)
    (halw : ∀ i, statusOf (pendServer i) = some CONFIRMATION_PENDING)
    (hf : maxTime < f * interval) (hf1 : 1 ≤ f) :
    waitForConfirmation server maxTime interval (K + 1) 0 =
      ConfirmResult.confirmed (server K) (K + 1) ∧
    ∃ rds, waitForConfirmation pendServer maxTime interval f 0 =
      ConfirmResult.confirmationTimeout rds := by
  constructor
  · exact confirm_success_aux server K maxTime interval hpend hconf hKt K 0 (by omega)
  · exact confirm_timeout_aux pendServer maxTime interval halw f 0 (by simpa using hf) hf1

/-- Witness for C2 with K = 2 pending reads against a one-second poll
interval, and a 301-read run against an entity that never confirms
within the default 300-second budget. -/
theorem wait_for_confirmation_spec_witness :
    waitForConfirmation
        (fun i => if i < 2 then [(CONFIRMATION_STATUS, Val.s CONFIRMATION_PENDING)]
          else [(CONFIRMATION_STATUS, Val.s CONFIRMATION_CONFIRMED)])
        MAX_TIME 1 3 0 =
      ConfirmResult.confirmed
        ((fun i => if i < 2 then [(CONFIRMATION_STATUS, Val.s CONFIRMATION_PENDING)]
          else [(CONFIRMATION_STATUS, Val.s CONFIRMATION_CONFIRMED)]) 2) 3 ∧
    ∃ rds, waitForConfirmation
        (fun _ => [(CONFIRMATION_STATUS, Val.s CONFIRMATION_PENDING)])
        MAX_TIME 1 301 0 =
      ConfirmResult.confirmationTimeout rds :=
  wait_for_confirmation_spec
    (fun i => if i < 2 then [(CONFIRMATION_STATUS, Val.s CONFIRMATION_PENDING)]
      else [(CONFIRMATION_STATUS, Val.s CONFIRMATION_CONFIRMED)])
    (fun _ => [(CONFIRMATION_STATUS, Val.s CONFIRMATION_PENDING)])
    2 MAX_TIME 1 301
    (by decide) (by decide) (by decide) (fun i => rfl) (by decide) (by decide)

/-- C7: every entity returned by create carries a present, non-empty
identity, and re-reading by that identity returns a mapping equal to
the created one (create followed by read is a round-trip). -/
theorem create_read_roundtrip_spec (srv : ServerState) (data : Dict) :
    ∃ ident : String,
      dlookup "identity" (LocationsClient.create_from_data srv data).1 =
        some (Val.s ident) ∧
      ident ≠ "" ∧
      LocationsClient.read (LocationsClient.create_from_data srv data).2 ident =
        Except.ok (LocationsClient.create_from_data srv data).1 := by
  refine ⟨LOCATIONS_LABEL ++ SEP ++ toString srv.nextId, ?_, ?_, ?_⟩
  · simp [LocationsClient.create_from_data, serverCreate, dlookup]
  · intro hident
    have hlen := congrArg String.length hident
    rw [String.length_append, String.length_append] at hlen
    have h1 : LOCATIONS_LABEL.length = 9 := rfl
    have h2 : SEP.length = 1 := rfl
    have h0 : ("" : String).length = 0 := rfl
    rw [h1, h2, h0] at hlen
    omega
  · simp [LocationsClient.read, LocationsClient.create_from_data, serverCreate,
      serverGet, storeGet]

end Archivist
